import Mathlib

/-!
# Verification of the restaurant-search API route

Shallow embedding of `src/app/api/restaurants/route.ts` (the `GET` and
`POST` handlers) together with the JavaScript primitives the handlers
rely on (truthiness tests, `parseFloat`, `Array.prototype.sort`,
`Array.prototype.filter`, `Array.prototype.map`, `Array.prototype.slice`).

JavaScript numbers are modelled as rationals (`ℚ`); `NaN` is modelled by
`Option ℚ` where `none` plays the role of `NaN` at parse boundaries.
The functions imported from `src/utils/distance.ts` (`calculateDistance`,
`mockGeocode`, `DEFAULT_COORDINATES`) are not part of the repository
snapshot, so the handlers are parameterised over them, exactly as the
route module treats them: opaque imported values.

`Array.prototype.sort` with comparator `(a, b) => a.distance - b.distance`
is, per the ECMAScript specification, a stable sort by the total preorder
`a.distance ≤ b.distance`; it is modelled by `List.mergeSort`, which is
stable and sorts by the supplied boolean `le`.
-/

/-- A catalog entry, after `src/types/restaurant.ts` and the fields used by
the route and the components (`id`, `name`, `cuisine`, `description`,
`rating`, `priceRange`, `openingHours`, `closingHours`, `latitude`,
`longitude`, `address`). -/
structure Restaurant where
  id : Nat
  name : String
  cuisine : String
  description : String
  rating : ℚ
  priceRange : String
  openingHours : String
  closingHours : String
  latitude : ℚ
  longitude : ℚ
  address : String
  deriving DecidableEq, Repr

/-- The coordinate pairs returned by `mockGeocode` and stored in
`DEFAULT_COORDINATES` (`{ latitude, longitude }`). -/
structure Coordinates where
  latitude : ℚ
  longitude : ℚ
  deriving DecidableEq, Repr

/-- The `searchLocation` object of the GET response body. -/
structure SearchLocation where
  latitude : ℚ
  longitude : ℚ
  address : String
  deriving DecidableEq, Repr

/-- Response of the GET handler: `NextResponse.json({restaurants, searchLocation})`
(status 200) or `NextResponse.json({error}, {status: 400})`.  The `catch`
branch (status 500) is unreachable in the embedding, which has no
exceptions. -/
inductive GetResponse where
  | ok (restaurants : List (Restaurant × ℚ)) (searchLocation : SearchLocation)
  | badRequest (error : String)
  deriving DecidableEq, Repr

/-- HTTP status of a GET response. -/
def GetResponse.status : GetResponse → Nat
  | .ok _ _ => 200
  | .badRequest _ => 400

/-- Response of the POST handler: `{restaurants}` (status 200) or an error
object with status 400. -/
inductive PostResponse where
  | ok (restaurants : List (Restaurant × ℚ))
  | badRequest (error : String)
  deriving DecidableEq, Repr

/-- HTTP status of a POST response. -/
def PostResponse.status : PostResponse → Nat
  | .ok _ => 200
  | .badRequest _ => 400

/-- The query parameters of a GET request: `searchParams.get` returns the
string value, or `null` (here `none`) when the parameter is absent. -/
structure GetRequest where
  address : Option String
  lat : Option String
  lng : Option String
  deriving DecidableEq, Repr

/-- The `filters` object of the POST body; each field may be absent. -/
structure Filters where
  cuisine : Option String
  minRating : Option ℚ
  priceRange : Option String
  deriving DecidableEq, Repr

/-- The parsed POST body `{ latitude, longitude, filters }`; each field may
be absent from the JSON. -/
structure PostBody where
  latitude : Option ℚ
  longitude : Option ℚ
  filters : Option Filters
  deriving DecidableEq, Repr

/-- JavaScript truthiness of a string-or-null value: `null`/absent and the
empty string are falsy, every other string is truthy. -/
def strTruthy : Option String → Bool
  | none => false
  | some s => !(s == "")

/-- JavaScript truthiness of a number-or-absent value: absent (`undefined`)
and `0` are falsy, every other (finite) number is truthy.  (`NaN`, also
falsy, has no rational representative and is outside this model.) -/
def numTruthy : Option ℚ → Bool
  | none => false
  | some q => !(q == 0)

/-- JavaScript `a || b` for a string-or-null `a` with string default `b`,
as in `address || 'Default location (San Francisco)'`. -/
def jsOr (a : Option String) (b : String) : String :=
  match a with
  | none => b
  | some s => if s == "" then b else s

/-- Value of a digit string, most significant first. -/
def digitsVal (ds : List Char) : Nat :=
  ds.foldl (fun acc c => acc * 10 + (c.toNat - 48)) 0

/-- Model of JavaScript `parseFloat` on decimal numeral strings: skip
leading spaces, read an optional sign, then the longest prefix of the
form `digits`, `digits.digits`, or `.digits`; trailing characters are
ignored.  `none` models `NaN` (no digit could be read).  Exponent forms
and the literals `Infinity`/`-Infinity` are outside this model. -/
def parseFloat (s : String) : Option ℚ :=
  let cs := s.toList.dropWhile (fun c => c == ' ')
  let signAndRest : ℚ × List Char :=
    match cs with
    | '-' :: rest => (-1, rest)
    | '+' :: rest => (1, rest)
    | _ => (1, cs)
  let sign := signAndRest.1
  let cs := signAndRest.2
  let intPart := cs.takeWhile Char.isDigit
  let afterInt := cs.dropWhile Char.isDigit
  let fracPart :=
    match afterInt with
    | '.' :: rest => rest.takeWhile Char.isDigit
    | _ => []
  if intPart.isEmpty && fracPart.isEmpty then
    none
  else
    some (sign * ((digitsVal intPart : ℚ) + (digitsVal fracPart : ℚ) / 10 ^ fracPart.length))

/-- Constant `RESULTS_LIMIT`: number of restaurants to return (route.ts line 7). -/
def RESULTS_LIMIT : Nat := 5

/-- Lines 49–62 and 113–126 of `route.ts` (the two copies are textually
identical up to the origin variable names): map each restaurant to
`{...restaurant, distance: calculateDistance(userLat, userLng, r.latitude,
r.longitude)}`, sort ascending by `distance` with the stable comparator
`(a, b) => a.distance - b.distance`, and `slice(0, RESULTS_LIMIT)`.
The in-place `sort` mutates only this freshly `map`-allocated array. -/
def rankRestaurants (calculateDistance : ℚ → ℚ → ℚ → ℚ → ℚ)
    (userLat userLng : ℚ) (restaurants : List Restaurant) : List (Restaurant × ℚ) :=
  let restaurantsWithDistance :=
    restaurants.map (fun r => (r, calculateDistance userLat userLng r.latitude r.longitude))
  (restaurantsWithDistance.mergeSort (fun a b => a.2 ≤ b.2)).take RESULTS_LIMIT

/-- The GET handler of `route.ts` (lines 9–80), parameterised over the
imports from `src/utils/distance.ts` and over the shared catalog
`restaurantData.restaurants`.  Returns the response paired with the shared
catalog as it stands after the request: the handler only reads the catalog
(`map`, `filter` and `slice` allocate fresh arrays, and the mutating
`sort` is invoked on the fresh `map` result), so the second component is
the unchanged input catalog. -/
def GET (calculateDistance : ℚ → ℚ → ℚ → ℚ → ℚ)
    (mockGeocode : String → Option Coordinates) (DEFAULT_COORDINATES : Coordinates)
    (catalog : List Restaurant) (req : GetRequest) : GetResponse × List Restaurant :=
  let address := req.address
  let lat := req.lat
  let lng := req.lng
  if strTruthy lat && strTruthy lng then
    match parseFloat (lat.getD ""), parseFloat (lng.getD "") with
    | some userLat, some userLng =>
      (.ok (rankRestaurants calculateDistance userLat userLng catalog)
        { latitude := userLat, longitude := userLng,
          address := jsOr address "Default location (San Francisco)" },
       catalog)
    | _, _ =>
      (.badRequest "Invalid coordinates provided", catalog)
  else
    let userCoords : ℚ × ℚ :=
      if strTruthy address then
        match mockGeocode (address.getD "") with
        | some coords => (coords.latitude, coords.longitude)
        | none => (DEFAULT_COORDINATES.latitude, DEFAULT_COORDINATES.longitude)
      else
        (DEFAULT_COORDINATES.latitude, DEFAULT_COORDINATES.longitude)
    (.ok (rankRestaurants calculateDistance userCoords.1 userCoords.2 catalog)
      { latitude := userCoords.1, longitude := userCoords.2,
        address := jsOr address "Default location (San Francisco)" },
     catalog)

/-- Lines 99–111 of `route.ts`: the sequential filter pipeline of the POST
handler.  Each sub-filter is applied only when its value is truthy
(`if (filters.cuisine)` etc.), so absent, empty-string and zero values
skip their filter. -/
def applyFilters (filters : Option Filters) (restaurants : List Restaurant) : List Restaurant :=
  match filters with
  | none => restaurants
  | some f =>
    let r1 :=
      if strTruthy f.cuisine then
        restaurants.filter (fun r => r.cuisine.toLower == (f.cuisine.getD "").toLower)
      else restaurants
    let r2 :=
      if numTruthy f.minRating then
        r1.filter (fun r => decide ((f.minRating.getD 0) ≤ r.rating))
      else r1
    let r3 :=
      if strTruthy f.priceRange then
        r2.filter (fun r => r.priceRange == f.priceRange.getD "")
      else r2
    r3

/-- The POST handler of `route.ts` (lines 83–139), parameterised like `GET`.
`if (!latitude || !longitude)` is JavaScript truthiness: an absent field
and the number `0` both trigger the 400 response.  As for `GET`, the
second component is the shared catalog after the request. -/
def POST (calculateDistance : ℚ → ℚ → ℚ → ℚ → ℚ)
    (catalog : List Restaurant) (body : PostBody) : PostResponse × List Restaurant :=
  if !numTruthy body.latitude || !numTruthy body.longitude then
    (.badRequest "Latitude and longitude are required", catalog)
  else
    let restaurants := applyFilters body.filters catalog
    (.ok (rankRestaurants calculateDistance (body.latitude.getD 0) (body.longitude.getD 0)
      restaurants),
     catalog)

/-- A sample catalog entry used by concrete witnesses. -/
def sampleRestaurant : Restaurant :=
  { id := 1, name := "Golden Dragon", cuisine := "Chinese",
    description := "Dim sum and noodles", rating := 45/10, priceRange := "$$",
    openingHours := "11:00", closingHours := "22:00",
    latitude := 37774/1000, longitude := -122419/1000, address := "123 Grant Ave" }

/-- A second sample entry, farther from the sample origins. -/
def sampleRestaurant2 : Restaurant :=
  { id := 2, name := "Taqueria Luna", cuisine := "Mexican",
    description := "Tacos al pastor", rating := 42/10, priceRange := "$",
    openingHours := "10:00", closingHours := "21:00",
    latitude := 37750/1000, longitude := -122400/1000, address := "456 Mission St" }

/-- A sample default coordinate standing in for `DEFAULT_COORDINATES`. -/
def sampleDefault : Coordinates :=
  { latitude := 37775/1000, longitude := -122419/1000 }

/-- A sample distance function standing in for `calculateDistance`
(any function works for the handler-level claims). -/
def sampleDist : ℚ → ℚ → ℚ → ℚ → ℚ :=
  fun la ln rla rln => (la - rla) ^ 2 + (ln - rln) ^ 2

/-- A geocode table that matches nothing. -/
def geocodeNone : String → Option Coordinates := fun _ => none

/-- A geocode table with a single entry for "Atlantis". -/
def geocodeAtlantis : String → Option Coordinates :=
  fun s => if s == "Atlantis" then some { latitude := 1, longitude := 2 } else none

/-- The `address` field of the `searchLocation` of a successful GET
response, `none` on an error response. -/
def GetResponse.searchAddress : GetResponse → Option String
  | .ok _ loc => some loc.address
  | .badRequest _ => none

/-- The coordinates of the `searchLocation` of a successful GET response,
`none` on an error response. -/
def GetResponse.searchCoords : GetResponse → Option (ℚ × ℚ)
  | .ok _ loc => some (loc.latitude, loc.longitude)
  | .badRequest _ => none

/-- A stable sort does not reorder elements that are mutually tied under
`le`: filtering the sorted list by a class of mutually tied elements gives
the same list as filtering the input. -/
theorem mergeSort_filter_stable {α : Type} (le : α → α → Bool) (cls : α → Bool) (l : List α)
    (trans : ∀ a b c, le a b → le b c → le a c)
    (total : ∀ a b, le a b || le b a)
    (htied : ∀ a b, cls a → cls b → le a b) :
    (l.mergeSort le).filter cls = l.filter cls := by
  have h1 : List.Sublist (l.filter cls) l := List.filter_sublist l
  have hpw : (l.filter cls).Pairwise (le · ·) :=
    List.pairwise_of_forall_mem_list (fun a ha b hb =>
      htied a b (List.mem_filter.1 ha).2 (List.mem_filter.1 hb).2)
  have h2 : List.Sublist (l.filter cls) (l.mergeSort le) :=
    List.sublist_mergeSort trans total hpw h1
  have h3 : (l.filter cls).filter cls = l.filter cls := by
    rw [List.filter_eq_self]
    exact fun a ha => (List.mem_filter.1 ha).2
  have h4 := h2.filter cls
  rw [h3] at h4
  have h5 : ((l.mergeSort le).filter cls).length = (l.filter cls).length :=
    ((List.mergeSort_perm l le).filter cls).length_eq
  exact (h4.eq_of_length h5.symm).symm

/-- Filtering a prefix yields a prefix of the filtered list. -/
theorem take_filter_isPrefix {α : Type} (p : α → Bool) (n : Nat) (l : List α) :
    (l.take n).filter p <+: l.filter p :=
  List.IsPrefix.filter p <| List.take_prefix n l

/-- The ranked list is sorted non-decreasing by the distance component. -/
theorem rank_pairwise (cd : ℚ → ℚ → ℚ → ℚ → ℚ) (la ln : ℚ) (l : List Restaurant) :
    (rankRestaurants cd la ln l).Pairwise (fun a b => a.2 ≤ b.2) := by
  unfold rankRestaurants
  have h := @List.sorted_mergeSort (Restaurant × ℚ)
      (fun a b : Restaurant × ℚ => decide (a.2 ≤ b.2))
      (fun a b c hab hbc => by
        simp only [decide_eq_true_eq] at *
        exact le_trans hab hbc)
      (fun a b => by
        simp only [Bool.or_eq_true, decide_eq_true_eq]
        exact le_total a.2 b.2)
      (l.map (fun r => (r, cd la ln r.latitude r.longitude)))
  have h' := h.imp (fun {a b} hab => of_decide_eq_true hab)
  exact h'.sublist (List.take_sublist _ _)

/-- The ranked list has exactly `min RESULTS_LIMIT n` elements for an input
of `n` restaurants. -/
theorem rank_length (cd : ℚ → ℚ → ℚ → ℚ → ℚ) (la ln : ℚ) (l : List Restaurant) :
    (rankRestaurants cd la ln l).length = min RESULTS_LIMIT l.length := by
  simp [rankRestaurants]

/-- Every successful GET response carries a ranking of the full catalog. -/
theorem GET_ok_inv {cd : ℚ → ℚ → ℚ → ℚ → ℚ} {g : String → Option Coordinates}
    {dc : Coordinates} {cat : List Restaurant} {req : GetRequest}
    {rs : List (Restaurant × ℚ)} {loc : SearchLocation}
    (h : (GET cd g dc cat req).1 = .ok rs loc) :
    ∃ la ln, rs = rankRestaurants cd la ln cat := by
  unfold GET at h
  dsimp only at h
  split at h
  · split at h
    · simp only [GetResponse.ok.injEq] at h
      exact ⟨_, _, h.1.symm⟩
    · simp at h
  · simp only [GetResponse.ok.injEq] at h
    exact ⟨_, _, h.1.symm⟩

/-- Every successful POST response carries a ranking of the filtered catalog. -/
theorem POST_ok_inv {cd : ℚ → ℚ → ℚ → ℚ → ℚ} {cat : List Restaurant} {body : PostBody}
    {rs : List (Restaurant × ℚ)}
    (h : (POST cd cat body).1 = .ok rs) :
    ∃ la ln, rs = rankRestaurants cd la ln (applyFilters body.filters cat) := by
  unfold POST at h
  dsimp only at h
  split at h
  · simp at h
  · simp only [PostResponse.ok.injEq] at h
    exact ⟨_, _, h.symm⟩

/-- The per-entry predicate actually decided by the POST filter pipeline:
a sub-filter applies only when its value is truthy (a non-empty `cuisine`
string, a non-zero `minRating`, a non-empty `priceRange` string); a falsy
value skips the sub-filter exactly like an absent one.  The applied
sub-filters are combined by logical AND: case-insensitive cuisine
equality, inclusive `minRating ≤ rating`, exact `priceRange` equality. -/
def codeMatches (filters : Option Filters) (r : Restaurant) : Bool :=
  match filters with
  | none => true
  | some f =>
    (!strTruthy f.cuisine || r.cuisine.toLower == (f.cuisine.getD "").toLower) &&
    (!numTruthy f.minRating || decide ((f.minRating.getD 0) ≤ r.rating)) &&
    (!strTruthy f.priceRange || r.priceRange == f.priceRange.getD "")

/-- The per-entry predicate exactly as claim C4 words it: an absent spec
matches every entry; a present spec matches when every present (`some`)
sub-filter holds, absent sub-filters being vacuously true; cuisine is
case-insensitive exact equality, `minRating` is the inclusive comparison,
`priceRange` is exact equality. -/
def claimC4Matches (filters : Option Filters) (r : Restaurant) : Bool :=
  match filters with
  | none => true
  | some f =>
    (match f.cuisine with
     | none => true
     | some c => r.cuisine.toLower == c.toLower) &&
    (match f.minRating with
     | none => true
     | some m => decide (m ≤ r.rating)) &&
    (match f.priceRange with
     | none => true
     | some p => r.priceRange == p)

/-- C4 (amended): on the POST path an entry survives the filter pipeline
exactly when `codeMatches` holds: an absent spec matches every entry; a
present spec is the AND of its truthy sub-filters, where a falsy sub-filter
value (absent, empty-string cuisine or priceRange, zero minRating) is
treated like an absent one; the applied comparisons are case-insensitive
cuisine equality, inclusive `minRating ≤ rating`, and exact priceRange
equality. -/
theorem applyFilters_eq_filter (filters : Option Filters) (l : List Restaurant) :
    applyFilters filters l = l.filter (fun r => codeMatches filters r) := by
  cases filters with
  | none => simp [applyFilters, codeMatches]
  | some f =>
    dsimp only [applyFilters]
    cases h1 : strTruthy f.cuisine <;> cases h2 : numTruthy f.minRating <;>
      cases h3 : strTruthy f.priceRange <;>
        simp [h1, h2, h3, codeMatches, List.filter_filter, Bool.and_assoc,
          Bool.and_comm, Bool.and_left_comm]

/-- C7: for every origin, distance function and catalog, entries whose
computed distances are equal appear in the ranked output in their original
catalog order: for every distance value `d`, the entries of the output at
distance `d` form a prefix of the entries at distance `d` of the
catalog-ordered mapped list.  The sort used for ranking is stable, so the
output order is deterministic under distance ties. -/
theorem ranking_ties_preserve_catalog_order (cd : ℚ → ℚ → ℚ → ℚ → ℚ) (la ln : ℚ)
    (catalog : List Restaurant) (d : ℚ) :
    (rankRestaurants cd la ln catalog).filter (fun p => p.2 == d) <+:
      (catalog.map (fun r => (r, cd la ln r.latitude r.longitude))).filter
        (fun p => p.2 == d) := by
  unfold rankRestaurants
  have hstab := mergeSort_filter_stable
      (fun a b : Restaurant × ℚ => decide (a.2 ≤ b.2))
      (fun p : Restaurant × ℚ => p.2 == d)
      (catalog.map (fun r => (r, cd la ln r.latitude r.longitude)))
      (fun a b c hab hbc => by
        simp only [decide_eq_true_eq] at *
        exact le_trans hab hbc)
      (fun a b => by
        simp only [Bool.or_eq_true, decide_eq_true_eq]
        exact le_total a.2 b.2)
      (fun a b ha hb => by
        simp only [beq_iff_eq] at ha hb
        simp [ha, hb])
  have h := take_filter_isPrefix (fun p : Restaurant × ℚ => p.2 == d) RESULTS_LIMIT
      ((catalog.map (fun r => (r, cd la ln r.latitude r.longitude))).mergeSort
        (fun a b => a.2 ≤ b.2))
  rw [hstab] at h
  exact h

/-- C3: on both the GET and the POST path, every successful response's
restaurant list is sorted non-decreasing by the distance field, and its
length is at most `min RESULTS_LIMIT n` where `n` is the number of catalog
entries surviving the filters (the whole catalog on the GET path, which
applies no filters). -/
theorem handlers_results_sorted_and_capped
    (cd : ℚ → ℚ → ℚ → ℚ → ℚ) (g : String → Option Coordinates) (dc : Coordinates)
    (cat : List Restaurant) (req : GetRequest) (body : PostBody)
    (rs rs' : List (Restaurant × ℚ)) (loc : SearchLocation)
    (hg : (GET cd g dc cat req).1 = .ok rs loc)
    (hp : (POST cd cat body).1 = .ok rs') :
    (rs.Pairwise (fun a b => a.2 ≤ b.2) ∧ rs.length ≤ min RESULTS_LIMIT cat.length) ∧
    (rs'.Pairwise (fun a b => a.2 ≤ b.2) ∧
      rs'.length ≤ min RESULTS_LIMIT (applyFilters body.filters cat).length) := by
  obtain ⟨la, ln, rfl⟩ := GET_ok_inv hg
  obtain ⟨la', ln', rfl⟩ := POST_ok_inv hp
  exact ⟨⟨rank_pairwise cd la ln cat, le_of_eq (rank_length cd la ln cat)⟩,
    ⟨rank_pairwise cd la' ln' _, le_of_eq (rank_length cd la' ln' _)⟩⟩

/-- Witness for C3: both handlers succeed on a concrete request, and the
sortedness and length bounds hold for the concrete outputs. -/
theorem handlers_results_sorted_and_capped_witness :
    ((rankRestaurants sampleDist sampleDefault.latitude sampleDefault.longitude
        [sampleRestaurant]).Pairwise (fun a b => a.2 ≤ b.2) ∧
      (rankRestaurants sampleDist sampleDefault.latitude sampleDefault.longitude
        [sampleRestaurant]).length ≤ min RESULTS_LIMIT [sampleRestaurant].length) ∧
    ((rankRestaurants sampleDist 1 1 (applyFilters none [sampleRestaurant])).Pairwise
        (fun a b => a.2 ≤ b.2) ∧
      (rankRestaurants sampleDist 1 1 (applyFilters none [sampleRestaurant])).length ≤
        min RESULTS_LIMIT (applyFilters none [sampleRestaurant]).length) :=
  handlers_results_sorted_and_capped sampleDist geocodeNone sampleDefault
    [sampleRestaurant] { address := none, lat := none, lng := none }
    { latitude := some 1, longitude := some 1, filters := none }
    _ _ { latitude := sampleDefault.latitude, longitude := sampleDefault.longitude,
          address := "Default location (San Francisco)" }
    rfl rfl

/-- C8: neither handler mutates the shared catalog: for every request, the
catalog after handling is the catalog before.  (Per-request work happens
on fresh arrays: `map`, `filter` and `slice` allocate, and the in-place
`sort` targets the fresh `map` result.) -/
theorem handlers_do_not_mutate_catalog
    (cd : ℚ → ℚ → ℚ → ℚ → ℚ) (g : String → Option Coordinates) (dc : Coordinates)
    (cat : List Restaurant) (req : GetRequest) (body : PostBody) :
    (GET cd g dc cat req).2 = cat ∧ (POST cd cat body).2 = cat := by
  constructor
  · unfold GET
    dsimp only
    split
    · split <;> rfl
    · rfl
  · unfold POST
    dsimp only
    split <;> rfl

/-- C4 counterexample: with the sub-filter `priceRange = ""` present, the
claim's predicate (exact equality) rejects the sample entry whose price
range is `"$$"`, but the code's truthiness check treats the falsy
sub-filter as absent and keeps the entry. -/
theorem empty_price_subfilter_diverges :
    applyFilters (some { cuisine := none, minRating := none, priceRange := some "" })
        [sampleRestaurant] = [sampleRestaurant] ∧
    List.filter
        (fun r => claimC4Matches
          (some { cuisine := none, minRating := none, priceRange := some "" }) r)
        [sampleRestaurant] = [] := by
  constructor <;> rfl

/-- C1 counterexample: the GET handler accepts `lat=91, lng=0` (latitude
out of range) with status 200 instead of the claimed 400, and ranks the
catalog at that origin. -/
theorem get_out_of_range_not_rejected :
    (GET sampleDist geocodeNone sampleDefault [sampleRestaurant]
        { address := none, lat := some "91", lng := some "0" }).1.status = 200 ∧
    ¬ (GET sampleDist geocodeNone sampleDefault [sampleRestaurant]
        { address := none, lat := some "91", lng := some "0" }).1.status = 400 := by
  constructor
  · rfl
  · decide

/-- C1 (amended): the GET handler rejects a coordinate pair with status 400
only when a value fails to parse as a number (NaN); any pair of parsed
numbers — including out-of-range values such as latitude 91 — is accepted:
the handler returns 200 and ranks the catalog at the parsed origin. -/
theorem get_accepts_out_of_range_parsed_coords
    (cd : ℚ → ℚ → ℚ → ℚ → ℚ) (g : String → Option Coordinates) (dc : Coordinates)
    (cat : List Restaurant) (req : GetRequest) (la ln : ℚ)
    (hlat : strTruthy req.lat = true) (hlng : strTruthy req.lng = true)
    (hpla : parseFloat (req.lat.getD "") = some la)
    (hpln : parseFloat (req.lng.getD "") = some ln) :
    (GET cd g dc cat req).1 =
      .ok (rankRestaurants cd la ln cat)
        { latitude := la, longitude := ln,
          address := jsOr req.address "Default location (San Francisco)" } := by
  unfold GET
  dsimp only
  rw [hlat, hlng]
  simp [hpla, hpln]

/-- Witness for C1 (amended): `lat=91, lng=0` is accepted and ranked. -/
theorem get_accepts_out_of_range_parsed_coords_witness :
    (GET sampleDist geocodeNone sampleDefault [sampleRestaurant]
        { address := none, lat := some "91", lng := some "0" }).1 =
      .ok (rankRestaurants sampleDist 91 0 [sampleRestaurant])
        { latitude := 91, longitude := 0,
          address := jsOr none "Default location (San Francisco)" } :=
  get_accepts_out_of_range_parsed_coords sampleDist geocodeNone sampleDefault
    [sampleRestaurant] { address := none, lat := some "91", lng := some "0" }
    91 0 (by decide) (by decide)
    (by simp [parseFloat, digitsVal, List.dropWhile, List.takeWhile])
    (by simp [parseFloat, digitsVal, List.dropWhile, List.takeWhile])

/-- C2 counterexample: for the address `"Atlantis"`, a geocode table that
does not match it yields a success at the default coordinate labelled
`"Atlantis"`, and a geocode table that does match it yields a success at
the resolved coordinate with the very same label `"Atlantis"`: the label
does not mark the fallback case distinctly, so the two cases cannot be
told apart from the label alone. -/
theorem get_unmatched_address_label_not_distinct :
    (GET sampleDist geocodeNone sampleDefault [sampleRestaurant]
        { address := some "Atlantis", lat := none, lng := none }).1.searchAddress =
      some "Atlantis" ∧
    (GET sampleDist geocodeAtlantis sampleDefault [sampleRestaurant]
        { address := some "Atlantis", lat := none, lng := none }).1.searchAddress =
      some "Atlantis" ∧
    (GET sampleDist geocodeNone sampleDefault [sampleRestaurant]
        { address := some "Atlantis", lat := none, lng := none }).1.searchCoords =
      some (sampleDefault.latitude, sampleDefault.longitude) ∧
    (GET sampleDist geocodeAtlantis sampleDefault [sampleRestaurant]
        { address := some "Atlantis", lat := none, lng := none }).1.searchCoords =
      some (1, 2) := by
  refine ⟨rfl, rfl, rfl, by decide⟩

/-- C2 (amended): a GET request whose free-text address matches no entry of
the geocode table succeeds (never errors) with the default coordinate as
the search location, but its address label is the supplied address text
itself — the same label a resolved address produces — so the fallback is
not distinguishable from a resolved location by the label; the distinct
label `"Default location (San Francisco)"` appears only when no address
is supplied at all. -/
theorem get_unmatched_address_defaults_with_echoed_label
    (cd : ℚ → ℚ → ℚ → ℚ → ℚ) (g : String → Option Coordinates) (dc : Coordinates)
    (cat : List Restaurant) (req : GetRequest) (a : String)
    (haddr : req.address = some a) (hne : ¬ a = "")
    (hnoll : ¬ (strTruthy req.lat = true ∧ strTruthy req.lng = true))
    (hgeo : g a = none) :
    (GET cd g dc cat req).1 =
      .ok (rankRestaurants cd dc.latitude dc.longitude cat)
        { latitude := dc.latitude, longitude := dc.longitude, address := a } := by
  have hguard : (strTruthy req.lat && strTruthy req.lng) = false := by
    cases hl : strTruthy req.lat <;> cases hg : strTruthy req.lng <;> simp_all
  have htruthy : strTruthy req.address = true := by
    rw [haddr]
    simp [strTruthy, hne]
  unfold GET
  dsimp only
  rw [hguard]
  simp [htruthy, haddr, hgeo, jsOr, hne]

/-- Witness for C2 (amended): the unmatched address `"Atlantis"` resolves
to the default coordinate with the echoed label. -/
theorem get_unmatched_address_defaults_with_echoed_label_witness :
    (GET sampleDist geocodeNone sampleDefault [sampleRestaurant]
        { address := some "Atlantis", lat := none, lng := none }).1 =
      .ok (rankRestaurants sampleDist sampleDefault.latitude sampleDefault.longitude
          [sampleRestaurant])
        { latitude := sampleDefault.latitude, longitude := sampleDefault.longitude,
          address := "Atlantis" } :=
  get_unmatched_address_defaults_with_echoed_label sampleDist geocodeNone sampleDefault
    [sampleRestaurant] { address := some "Atlantis", lat := none, lng := none }
    "Atlantis" rfl (by decide) (by decide) rfl

/-- C5: when both `lat` and `lng` are supplied (non-empty) but at least one
fails to parse as a number (NaN), the GET handler responds 400 with the
error body, and the rejection precedes any distance computation: the
response does not depend on the distance function at all. -/
theorem get_nan_coordinates_rejected_before_distance
    (cd cd' : ℚ → ℚ → ℚ → ℚ → ℚ) (g : String → Option Coordinates) (dc : Coordinates)
    (cat : List Restaurant) (req : GetRequest)
    (hlat : strTruthy req.lat = true) (hlng : strTruthy req.lng = true)
    (hnan : parseFloat (req.lat.getD "") = none ∨ parseFloat (req.lng.getD "") = none) :
    (GET cd g dc cat req).1 = .badRequest "Invalid coordinates provided" ∧
    GET cd g dc cat req = GET cd' g dc cat req := by
  unfold GET
  dsimp only
  rw [hlat, hlng]
  rcases hnan with h | h
  · simp only [h, Bool.and_self, if_true]
    cases parseFloat (req.lng.getD "") <;> simp
  · simp only [h, Bool.and_self, if_true]
    cases parseFloat (req.lat.getD "") <;> simp

/-- Witness for C5: `lat=abc, lng=1` is rejected with 400 and the response
is independent of the distance function. -/
theorem get_nan_coordinates_rejected_before_distance_witness :
    (GET sampleDist geocodeNone sampleDefault [sampleRestaurant]
        { address := none, lat := some "abc", lng := some "1" }).1 =
      .badRequest "Invalid coordinates provided" ∧
    GET sampleDist geocodeNone sampleDefault [sampleRestaurant]
        { address := none, lat := some "abc", lng := some "1" } =
      GET (fun a b c d => a + b + c + d) geocodeNone sampleDefault [sampleRestaurant]
        { address := none, lat := some "abc", lng := some "1" } :=
  get_nan_coordinates_rejected_before_distance sampleDist (fun a b c d => a + b + c + d)
    geocodeNone sampleDefault [sampleRestaurant]
    { address := none, lat := some "abc", lng := some "1" }
    (by decide) (by decide)
    (Or.inl (by simp [parseFloat, digitsVal, List.dropWhile, List.takeWhile]))

/-- C6: a POST body lacking the latitude field or the longitude field is
rejected with status 400 and the error body, and no filtering, distance
computation or ranking is performed: the response depends neither on the
distance function nor on the catalog. -/
theorem post_missing_coordinate_rejected_before_work
    (cd cd' : ℚ → ℚ → ℚ → ℚ → ℚ) (cat cat' : List Restaurant) (body : PostBody)
    (h : body.latitude = none ∨ body.longitude = none) :
    (POST cd cat body).1 = .badRequest "Latitude and longitude are required" ∧
    (POST cd cat body).1 = (POST cd' cat' body).1 := by
  have hguard : (!numTruthy body.latitude || !numTruthy body.longitude) = true := by
    rcases h with h | h <;> simp [h, numTruthy]
  unfold POST
  dsimp only
  rw [hguard]
  simp

/-- Witness for C6: a body with no latitude is rejected, independently of
catalog and distance function. -/
theorem post_missing_coordinate_rejected_before_work_witness :
    (POST sampleDist [sampleRestaurant]
        { latitude := none, longitude := some 1, filters := none }).1 =
      .badRequest "Latitude and longitude are required" ∧
    (POST sampleDist [sampleRestaurant]
        { latitude := none, longitude := some 1, filters := none }).1 =
      (POST (fun a b c d => a + b + c + d) []
        { latitude := none, longitude := some 1, filters := none }).1 :=
  post_missing_coordinate_rejected_before_work sampleDist (fun a b c d => a + b + c + d)
    [sampleRestaurant] [] { latitude := none, longitude := some 1, filters := none }
    (Or.inl rfl)

/-- C9: a POST body in which latitude or longitude is present but equal to
0 — a valid coordinate value — is rejected with status 400 exactly like a
missing field, because `!latitude` / `!longitude` is JavaScript truthiness
and `0` is falsy; the response is literally the missing-field response,
also when the field is replaced by an absent one. -/
theorem post_zero_coordinate_rejected
    (cd : ℚ → ℚ → ℚ → ℚ → ℚ) (cat : List Restaurant) (body : PostBody) (la ln : ℚ)
    (hla : body.latitude = some la) (hln : body.longitude = some ln)
    (h0 : la = 0 ∨ ln = 0) :
    (POST cd cat body).1 = .badRequest "Latitude and longitude are required" ∧
    (POST cd cat body).1 =
      (POST cd cat { latitude := none, longitude := none, filters := body.filters }).1 := by
  have hguard : (!numTruthy body.latitude || !numTruthy body.longitude) = true := by
    rcases h0 with h | h
    · simp [hla, h, numTruthy]
    · simp [hln, h, numTruthy]
  constructor
  · unfold POST
    dsimp only
    rw [hguard]
    simp
  · unfold POST
    dsimp only
    rw [hguard]
    simp [numTruthy]

/-- Witness for C9: `latitude = 0, longitude = 10` is rejected as missing. -/
theorem post_zero_coordinate_rejected_witness :
    (POST sampleDist [sampleRestaurant]
        { latitude := some 0, longitude := some 10, filters := none }).1 =
      .badRequest "Latitude and longitude are required" ∧
    (POST sampleDist [sampleRestaurant]
        { latitude := some 0, longitude := some 10, filters := none }).1 =
      (POST sampleDist [sampleRestaurant]
        { latitude := none, longitude := none, filters := none }).1 :=
  post_zero_coordinate_rejected sampleDist [sampleRestaurant]
    { latitude := some 0, longitude := some 10, filters := none } 0 10 rfl rfl
    (Or.inl rfl)

/-- C10: a GET request in which only one of `lat`/`lng` is supplied (or one
of them is the empty string) is not rejected: the supplied value is
silently ignored, the handler takes the address-lookup / default path —
returning exactly what it returns when both parameters are absent — and
the response status is 200, never 400. -/
theorem get_lone_coordinate_ignored
    (cd : ℚ → ℚ → ℚ → ℚ → ℚ) (g : String → Option Coordinates) (dc : Coordinates)
    (cat : List Restaurant) (req : GetRequest)
    (h : (¬ req.lat = none ∧ req.lng = none) ∨ (req.lat = none ∧ ¬ req.lng = none) ∨
      req.lat = some "" ∨ req.lng = some "") :
    (GET cd g dc cat req).1.status = 200 ∧
    (GET cd g dc cat req).1 =
      (GET cd g dc cat { address := req.address, lat := none, lng := none }).1 := by
  have hguard : (strTruthy req.lat && strTruthy req.lng) = false := by
    rcases h with ⟨_, h⟩ | ⟨h, _⟩ | h | h <;> simp [h, strTruthy]
  unfold GET
  dsimp only
  rw [hguard]
  simp [strTruthy, GetResponse.status]

/-- Witness for C10: `lat=5` alone (no `lng`) yields a 200 response equal
to the no-coordinates response. -/
theorem get_lone_coordinate_ignored_witness :
    (GET sampleDist geocodeNone sampleDefault [sampleRestaurant]
        { address := none, lat := some "5", lng := none }).1.status = 200 ∧
    (GET sampleDist geocodeNone sampleDefault [sampleRestaurant]
        { address := none, lat := some "5", lng := none }).1 =
      (GET sampleDist geocodeNone sampleDefault [sampleRestaurant]
        { address := none, lat := none, lng := none }).1 :=
  get_lone_coordinate_ignored sampleDist geocodeNone sampleDefault [sampleRestaurant]
    { address := none, lat := some "5", lng := none }
    (Or.inl ⟨by decide, rfl⟩)
